import Mathlib

/-!
Verification of the moco-mcp HTTP transport layer: a shallow embedding of
`src/http.ts` and `src/config/environment.ts`, together with a spec-modelled
request gate for the behaviour delegated to the external
StreamableHTTPServerTransport.
-/

namespace MocoMcp

/-! ## JavaScript string primitives

Faithful (ASCII-level) models of the JavaScript string operations the source
uses: `trim`, `toLowerCase`, `Number.parseInt(s, 10)`, and string truthiness.
-/

/-- Whitespace characters recognised by JavaScript `trim` / `parseInt`
(ASCII subset: space, tab, newline, carriage return, vertical tab, form feed). -/
def isJsWhitespace (c : Char) : Bool :=
  c = ' ' || c = '\t' || c = '\n' || c = '\x0d' || c = '\x0b' || c = '\x0c'

/-- Remove leading and trailing whitespace from a character list. -/
def trimChars (l : List Char) : List Char :=
  ((l.dropWhile isJsWhitespace).reverse.dropWhile isJsWhitespace).reverse

/-- JavaScript `String.prototype.trim` (ASCII whitespace). -/
def jsTrim (s : String) : String :=
  String.mk (trimChars s.toList)

/-- JavaScript `String.prototype.toLowerCase` restricted to ASCII letters. -/
def jsToLower (s : String) : String :=
  String.mk (s.toList.map Char.toLower)

/-- Decimal digit value accumulation for parseInt. -/
def digitsToNat (ds : List Char) : Nat :=
  ds.foldl (fun acc c => acc * 10 + (c.toNat - '0'.toNat)) 0

/-- JavaScript `Number.parseInt(s, 10)`: skip leading whitespace, optional
sign, then the longest prefix of decimal digits; `none` models `NaN`
(no digits found). -/
def jsParseIntDec (s : String) : Option Int :=
  let afterWs := s.toList.dropWhile isJsWhitespace
  match afterWs with
  | '+' :: rest =>
    let ds := rest.takeWhile Char.isDigit
    if ds.isEmpty then none else some (digitsToNat ds : Int)
  | '-' :: rest =>
    let ds := rest.takeWhile Char.isDigit
    if ds.isEmpty then none else some (-(digitsToNat ds : Int))
  | rest =>
    let ds := rest.takeWhile Char.isDigit
    if ds.isEmpty then none else some (digitsToNat ds : Int)

/-- JavaScript truthiness of an optional string (`undefined` and `""` are
falsy, every other string is truthy). -/
def jsTruthy (v : Option String) : Bool :=
  match v with
  | none => false
  | some s => s ≠ ""

/-- JavaScript `String.prototype.startsWith`. -/
def jsStartsWith (s pre : String) : Bool :=
  pre.toList.isPrefixOf s.toList

/-- JavaScript `String.prototype.endsWith`. -/
def jsEndsWith (s suf : String) : Bool :=
  suf.toList.reverse.isPrefixOf s.toList.reverse

/-- JavaScript `String.prototype.slice(0, -1)`: drop the final character. -/
def jsDropLast (s : String) : String :=
  String.mk s.toList.dropLast

/-- Split a character list at every occurrence of the separator `c`
(JavaScript `String.prototype.split` with a one-character separator; an
empty input yields one empty field, as in JS). -/
def splitFields (c : Char) : List Char → List Char → List (List Char)
  | [], acc => [acc.reverse]
  | x :: xs, acc =>
    if x = c then acc.reverse :: splitFields c xs []
    else splitFields c xs (x :: acc)

/-- JavaScript `String.prototype.split(",")`. -/
def jsSplitComma (s : String) : List String :=
  (splitFields ',' s.toList []).map String.mk

/-- Substring containment test (used to state "body containing ..."). -/
def containsSub (s pat : String) : Bool :=
  (List.range (s.length + 1)).any fun i => pat.toList.isPrefixOf (s.toList.drop i)

/-! ## Process environment

The fields of `process.env` that the configuration resolver and the HTTP
entry point read; `none` models an unset variable. -/

structure Env where
  MCP_HTTP_PORT : Option String := none
  PORT : Option String := none
  MCP_HTTP_HOST : Option String := none
  MCP_HTTP_PATH : Option String := none
  MCP_HTTP_SESSION_STATEFUL : Option String := none
  MCP_HTTP_SESSION_MODE : Option String := none
  MCP_HTTP_ALLOWED_HOSTS : Option String := none
  MCP_HTTP_ALLOWED_ORIGINS : Option String := none
  LOG_LEVEL : Option String := none
  deriving DecidableEq

/-! ## Configuration resolver (src/config/environment.ts) -/

def DEFAULT_HTTP_PORT : Int := 8080

def DEFAULT_HTTP_HOST : String := "0.0.0.0"

def DEFAULT_HTTP_BASE_PATH : String := "/mcp"

def DEFAULT_LOG_LEVEL : String := "info"

/-- Embedding of `parseCsv` from `src/config/environment.ts`: split on commas,
trim each entry, drop empties; `undefined` (and `""` by JS falsiness) or an
all-empty result yields `none`. -/
def parseCsv (value : Option String) : Option (List String) :=
  if !jsTruthy value then none
  else
    match value with
    | none => none
    | some s =>
      let entries := ((jsSplitComma s).map jsTrim).filter (fun e => e ≠ "")
      if entries.length > 0 then some entries else none

/-- Embedding of `parseCsvEnv` from `src/http.ts` (textually identical logic
to `parseCsv`). -/
def parseCsvEnv (value : Option String) : Option (List String) :=
  if !jsTruthy value then none
  else
    match value with
    | none => none
    | some s =>
      let entries := ((jsSplitComma s).map jsTrim).filter (fun e => e ≠ "")
      if entries.length > 0 then some entries else none

/-- Embedding of `normalizeHttpBasePath` from `src/config/environment.ts`. -/
def normalizeHttpBasePath (pathValue : Option String) : String :=
  if !jsTruthy pathValue then DEFAULT_HTTP_BASE_PATH
  else
    match pathValue with
    | none => DEFAULT_HTTP_BASE_PATH
    | some v =>
      let trimmed := jsTrim v
      if trimmed = "" then DEFAULT_HTTP_BASE_PATH
      else
        let withLeadingSlash := if jsStartsWith trimmed "/" then trimmed else "/" ++ trimmed
        if withLeadingSlash.length = 1 then "/"
        else if jsEndsWith withLeadingSlash "/" then jsDropLast withLeadingSlash
        else withLeadingSlash

structure HttpServerConfig where
  port : Int
  host : String
  basePath : String
  sessionStateful : Bool
  allowedHosts : Option (List String)
  allowedOrigins : Option (List String)
  deriving DecidableEq

/-- Embedding of `getHttpServerConfig` from `src/config/environment.ts`. -/
def getHttpServerConfig (env : Env) : HttpServerConfig :=
  let rawPort := env.MCP_HTTP_PORT <|> env.PORT
  let parsedPort := if jsTruthy rawPort then jsParseIntDec (rawPort.getD "") else some DEFAULT_HTTP_PORT
  let port := match parsedPort with
    | none => DEFAULT_HTTP_PORT
    | some n => if n ≤ 0 then DEFAULT_HTTP_PORT else n
  let host := match env.MCP_HTTP_HOST with
    | none => DEFAULT_HTTP_HOST
    | some h => if jsTrim h = "" then DEFAULT_HTTP_HOST else jsTrim h
  let basePath := normalizeHttpBasePath env.MCP_HTTP_PATH
  let sessionStateful :=
    if jsTruthy env.MCP_HTTP_SESSION_STATEFUL then
      jsToLower (env.MCP_HTTP_SESSION_STATEFUL.getD "") ≠ "false"
    else true
  { port := port
    host := host
    basePath := basePath
    sessionStateful := sessionStateful
    allowedHosts := parseCsv env.MCP_HTTP_ALLOWED_HOSTS
    allowedOrigins := parseCsv env.MCP_HTTP_ALLOWED_ORIGINS }

/-- Embedding of `normalizeLogLevel` from `src/config/environment.ts`. -/
def normalizeLogLevel (level : Option String) : String :=
  match level with
  | none => DEFAULT_LOG_LEVEL
  | some l =>
    let normalized := jsToLower l
    if normalized = "debug" || normalized = "info" ||
       normalized = "warn" || normalized = "error" then normalized
    else DEFAULT_LOG_LEVEL

/-- Embedding of `getLogLevel` from `src/config/environment.ts`. -/
def getLogLevel (env : Env) : String :=
  normalizeLogLevel env.LOG_LEVEL

/-! ## HTTP entry point (src/http.ts): option resolution -/

inductive SessionMode where
  | stateful
  | stateless
  deriving DecidableEq

/-- Embedding of the session-mode resolution in `startHttpServer`
(`src/http.ts` line 35): an explicit `sessionMode` option wins; otherwise the
mode is stateless exactly when `MCP_HTTP_SESSION_MODE` lowercases to
"stateless". -/
def resolveSessionMode (optMode : Option SessionMode) (env : Env) : SessionMode :=
  match optMode with
  | some m => m
  | none =>
    match env.MCP_HTTP_SESSION_MODE with
    | some v => if jsToLower v = "stateless" then .stateless else .stateful
    | none => .stateful

/-- Embedding of the `enableDnsRebindingProtection` expression in
`startHttpServer` (`src/http.ts` line 47):
`Boolean(allowedHosts?.length || allowedOrigins?.length)`. -/
def dnsRebindingEnabled (hosts origins : Option (List String)) : Bool :=
  (match hosts with | none => false | some l => l.length ≠ 0) ||
  (match origins with | none => false | some l => l.length ≠ 0)

/-! ## HTTP request handler error wrapper (src/http.ts lines 52-71) -/

/-- Structured response bodies a handler can leave on the response object. -/
inductive RespBody where
  /-- the JSON-RPC error envelope written by the catch branch:
  `jsonrpc` version, error `code` and `message`, and a null `id` -/
  | jsonErrorEnvelope (jsonrpc : String) (code : Int) (message : String) (idIsNull : Bool)
  | text (s : String)
  deriving DecidableEq

/-- The observable state of a Node `ServerResponse`. -/
structure Res where
  headersSent : Bool
  status : Option Nat
  contentTypeJson : Bool
  body : Option RespBody
  ended : Bool
  deriving DecidableEq

/-- Outcome of `transport.handleRequest(req, res)`: either it returns
normally having left the response in some state, or it throws, leaving the
response in the state it had reached at the throw. -/
inductive ForwardResult where
  | ok (r : Res)
  | threw (err : String) (r : Res)

/-- Embedding of the request handler installed by `createServer` in
`startHttpServer`: forward into the transport; on an uncaught failure, if
headers are not yet sent write a 500 with the JSON-RPC internal-error
envelope and end, otherwise just end the response. -/
def handleHttpRequest (forward : Res → ForwardResult) (res : Res) : Res :=
  match forward res with
  | .ok r => r
  | .threw _ r =>
    if !r.headersSent then
      { r with
        headersSent := true
        status := some 500
        contentTypeJson := true
        body := some (.jsonErrorEnvelope "2.0" (-32000) "Internal server error" true)
        ended := true }
    else
      { r with ended := true }

/-! ## Lifecycle controller: shutdown (src/http.ts lines 82-89)

The teardown steps are modelled as state transformers that also emit
begin/end events, composed in the order the source awaits them. -/

inductive TeardownEv where
  | httpCloseBegin
  | httpCloseEnd
  | transportCloseBegin
  | transportCloseEnd
  | mcpCloseBegin
  | mcpCloseEnd
  deriving DecidableEq

/-- Liveness of one registered session. -/
inductive SessionLiveness where
  | opened
  | closed
  deriving DecidableEq

/-- The resources owned by a started server: the listening socket, the
transport's session table, and the MCP server. -/
structure ServerState where
  listening : Bool
  sessions : List (String × SessionLiveness)
  transportOpen : Bool
  mcpOpen : Bool
  deriving DecidableEq

/-- Step (a)+(b) of shutdown: `httpServer.close(cb)` awaited to completion —
the socket stops listening and accepting. -/
def httpClose (s : ServerState) : ServerState × List TeardownEv :=
  ({ s with listening := false }, [.httpCloseBegin, .httpCloseEnd])

/-- Step (c): `transport.close()` — the session registry drains every
session and closes. -/
def transportClose (s : ServerState) : ServerState × List TeardownEv :=
  ({ s with
      sessions := s.sessions.map (fun p => (p.1, SessionLiveness.closed))
      transportOpen := false },
   [.transportCloseBegin, .transportCloseEnd])

/-- Step (d): `mcpServer.close()` — the protocol router resources are
released. -/
def mcpClose (s : ServerState) : ServerState × List TeardownEv :=
  ({ s with mcpOpen := false }, [.mcpCloseBegin, .mcpCloseEnd])

/-- Embedding of `shutdown` from `startHttpServer`: the three awaited closes
in source order, with the concatenated event trace. -/
def shutdown (s : ServerState) : ServerState × List TeardownEv :=
  let (s1, t1) := httpClose s
  let (s2, t2) := transportClose s1
  let (s3, t3) := mcpClose s2
  (s3, t1 ++ t2 ++ t3)

/-- The state after shutdown (discarding the trace). -/
def shutdownState (s : ServerState) : ServerState :=
  (shutdown s).1

/-- A started server owning one open session, used as a concrete instance. -/
def sampleServer : ServerState :=
  { listening := true
    sessions := [("sid-1", SessionLiveness.opened)]
    transportOpen := true
    mcpOpen := true }

/-- Shutdown as a fallible call: the source's `shutdown` awaits closes whose
errors it does not re-raise on the second invocation path (the HTTP close
callback discards its error argument), so the call resolves. -/
def shutdownE (s : ServerState) : Except String ServerState :=
  .ok (shutdownState s)

/-- Event `a` occurs strictly before event `b` in trace `tr` (first
occurrences). -/
def precedes (a b : TeardownEv) (tr : List TeardownEv) : Prop :=
  ∃ i j, i < j ∧ tr.get? i = some a ∧ tr.get? j = some b

/-! ## Signal handling (src/http.ts lines 91-102, 131-136) -/

inductive ProcEv where
  | shutdownStart
  | shutdownEnd (ok : Bool)
  | exitEv (code : Nat)
  deriving DecidableEq

/-- Observable state of the process with respect to signal handling: which
signals still have a pending `process.once` registration, how many times the
shutdown sequence has been triggered, the event trace, and the exit status. -/
structure SignalProc where
  onceHandlers : List String
  shutdownRuns : Nat
  trace : List ProcEv
  exited : Option Nat
  deriving DecidableEq

/-- Embedding of the registration loop in `startHttpServer`: a one-shot
handler is installed for each of SIGINT and SIGTERM. -/
def registerSignalHandlers : SignalProc :=
  { onceHandlers := ["SIGINT", "SIGTERM"], shutdownRuns := 0, trace := [], exited := none }

/-- Embedding of signal delivery against `process.once` semantics: if the
signal still has a pending one-shot handler, the handler is consumed and the
shutdown sequence runs to resolution (`shutdownOk` records whether it
succeeded; errors are caught and logged) and only then does the process exit,
with status 0; a signal without a pending handler triggers nothing. -/
def fireSignal (shutdownOk : Bool) (sig : String) (p : SignalProc) : SignalProc :=
  if p.onceHandlers.contains sig then
    { onceHandlers := p.onceHandlers.erase sig
      shutdownRuns := p.shutdownRuns + 1
      trace := p.trace ++ [.shutdownStart, .shutdownEnd shutdownOk, .exitEv 0]
      exited := some 0 }
  else p

/-- Embedding of the CLI entry branch (`src/http.ts` lines 131-136): a
startup failure exits with status 1, a successful start keeps the process
running. -/
def cliEntryExitCode (startupOk : Bool) : Option Nat :=
  if startupOk then none else some 1

/-! ## Request gate

Modelled from the spec: the per-request validation gate implemented by the
external `StreamableHTTPServerTransport.handleRequest` (the
@modelcontextprotocol/sdk transport wired up in `startHttpServer`), whose
implementation is not part of src/; only its caller (`src/http.ts`) and its
integration tests are. The stages below follow spec section 4.3 in order:
content negotiation, session validation, protocol-version check, forwarding. -/

inductive HttpMethod where
  | get
  | post
  deriving DecidableEq

/-- The transport-relevant parts of an inbound HTTP request. -/
structure GateRequest where
  method : HttpMethod
  /-- the Accept header advertises the structured-response media type -/
  acceptJson : Bool
  /-- the Accept header advertises the event-stream media type -/
  acceptEventStream : Bool
  /-- the Content-Type is the structured-message format -/
  contentTypeJson : Bool
  sessionId : Option String
  protocolVersion : Option String
  /-- the method field of the carried JSON-RPC message -/
  msgMethod : String
  deriving DecidableEq

/-- The session registry the gate consults: mode, the open sessions with
their negotiated protocol versions, and whether any initialization has
succeeded so far. -/
structure Registry where
  mode : SessionMode
  sessions : List (String × String)
  initialized : Bool
  deriving DecidableEq

/-- What the gate does with a request: reject it with a status and a failure
body, or admit it into the protocol router (creating a session first on a
stateful `initialize`). -/
inductive GateOutcome where
  | rejected (status : Nat) (body : String)
  | forwardedInit (newSession : Option String)
  | forwarded (sessionId : Option String)
  deriving DecidableEq

/-- The outcome admits the message to the protocol router. -/
def GateOutcome.isForwarded : GateOutcome → Bool
  | .rejected _ _ => false
  | .forwardedInit _ => true
  | .forwarded _ => true

/-- Look up a session id in the registry. -/
def Registry.lookup (reg : Registry) (sid : String) : Option String :=
  (reg.sessions.find? (fun p => p.1 = sid)).map (fun p => p.2)

/-- Modelled from the spec: the request gate of section 4.3. `fresh` is the
identifier the registry would generate for a newly created session,
`negotiated` the protocol version an initialization would negotiate. Stage 1
rejects bad content negotiation (dual accept for POST, event-stream accept
for GET) with 406 "Not Acceptable"; stage 2 validates GET session
correlation; stage 3 validates POST content type and session identity
(`initialize` bypasses the session requirement and creates a session in
stateful mode; any other method requires a valid `Mcp-Session-Id`); stage 4
rejects a protocol-version header that does not match the session's
negotiated version. The gate returns the outcome and the updated registry. -/
def requestGate (fresh : String) (negotiated : String) (r : GateRequest)
    (reg : Registry) : GateOutcome × Registry :=
  match r.method with
  | .post =>
    if !(r.acceptJson && r.acceptEventStream) then
      (.rejected 406 "Not Acceptable", reg)
    else if !r.contentTypeJson then
      (.rejected 415 "Unsupported Media Type", reg)
    else if r.msgMethod = "initialize" then
      match reg.mode with
      | .stateful =>
        (.forwardedInit (some fresh),
         { reg with sessions := (fresh, negotiated) :: reg.sessions, initialized := true })
      | .stateless => (.forwardedInit none, { reg with initialized := true })
    else
      match reg.mode with
      | .stateless => (.forwarded none, reg)
      | .stateful =>
        match r.sessionId with
        | none => (.rejected 400 "Bad Request: Mcp-Session-Id header is required", reg)
        | some sid =>
          match reg.lookup sid with
          | none => (.rejected 404 "Session not found", reg)
          | some ver =>
            match r.protocolVersion with
            | none => (.forwarded (some sid), reg)
            | some pv =>
              if pv = ver then (.forwarded (some sid), reg)
              else (.rejected 400 "Bad Request: Unsupported protocol version", reg)
  | .get =>
    if !r.acceptEventStream then
      (.rejected 406 "Not Acceptable", reg)
    else
      match r.sessionId with
      | none =>
        if reg.mode = .stateful && !reg.initialized then
          (.rejected 400 "Bad Request: Server not initialized", reg)
        else (.forwarded none, reg)
      | some sid =>
        match reg.lookup sid with
        | none => (.rejected 404 "Session not found", reg)
        | some ver =>
          match r.protocolVersion with
          | none => (.forwarded (some sid), reg)
          | some pv =>
            if pv = ver then (.forwarded (some sid), reg)
            else (.rejected 400 "Bad Request: Unsupported protocol version", reg)

/-- The stage of base-path normalization that runs after a leading slash is
ensured (used to state how the trailing slash is stripped). -/
def withLead (s : String) : String :=
  if jsStartsWith (jsTrim s) "/" then jsTrim s else "/" ++ jsTrim s

/-! ## Theorems -/

theorem toList_mk (l : List Char) : (String.mk l).toList = l := rfl

theorem toList_slash_append (x : String) : ("/" ++ x).toList = '/' :: x.toList := rfl

theorem jsStartsWith_slash_iff (x : String) :
    jsStartsWith x "/" = true ↔ ∃ t, x.toList = '/' :: t := by
  unfold jsStartsWith
  cases hx : x.toList with
  | nil =>
    constructor
    · intro h
      exact absurd h (by decide)
    · rintro ⟨t, ht⟩
      exact absurd ht (by simp)
  | cons c t =>
    show (List.isPrefixOf ['/'] (c :: t)) = true ↔ _
    constructor
    · intro h
      have h' : ('/' == c && List.isPrefixOf ([] : List Char) t) = true := h
      have hc : '/' = c := beq_iff_eq.mp ((Bool.and_eq_true _ _).mp h').1
      exact ⟨t, by rw [← hc]⟩
    · rintro ⟨t', ht'⟩
      injection ht' with h1 h2
      subst h1
      show ('/' == '/' && List.isPrefixOf ([] : List Char) t) = true
      simp

theorem trimChars_eq (l : List Char) :
    trimChars l = List.rdropWhile isJsWhitespace (l.dropWhile isJsWhitespace) := rfl

theorem dropWhile_trimChars (l : List Char) :
    (trimChars l).dropWhile isJsWhitespace = trimChars l := by
  rw [trimChars_eq, List.dropWhile_eq_self_iff]
  intro hl
  have hpre := List.rdropWhile_prefix isJsWhitespace (l.dropWhile isJsWhitespace)
  have hu : 0 < (l.dropWhile isJsWhitespace).length :=
    Nat.lt_of_lt_of_le hl hpre.length_le
  have hd := List.dropWhile_get_zero_not (p := isJsWhitespace) l hu
  simp only [List.get_eq_getElem] at hd ⊢
  rw [hpre.getElem hl]
  exact hd

theorem trimChars_idem (l : List Char) : trimChars (trimChars l) = trimChars l := by
  rw [trimChars_eq (trimChars l), dropWhile_trimChars, trimChars_eq,
    List.rdropWhile_idempotent]

theorem jsTrim_jsTrim (s : String) : jsTrim (jsTrim s) = jsTrim s := by
  unfold jsTrim
  rw [toList_mk, trimChars_idem]

theorem rdropWhile_cons_eq_self (p : Char → Bool) (a : Char) (l : List Char)
    (ha : p a = false) (h : List.rdropWhile p l = l) :
    List.rdropWhile p (a :: l) = a :: l := by
  by_cases hl : l = []
  · subst hl
    rw [List.rdropWhile_singleton, ha]
    simp
  · have hrev : l.reverse.dropWhile p = l.reverse := by
      have h2 : (l.reverse.dropWhile p).reverse = l := h
      calc l.reverse.dropWhile p = ((l.reverse.dropWhile p).reverse).reverse := by
            rw [List.reverse_reverse]
        _ = l.reverse := by rw [h2]
    show (((a :: l).reverse).dropWhile p).reverse = a :: l
    rw [List.reverse_cons, List.dropWhile_append, hrev]
    have hne : l.reverse.isEmpty = false := by
      cases l with
      | nil => exact absurd rfl hl
      | cons b t => simp
    simp [hne]

theorem trimChars_slash_cons (s : String) :
    trimChars ('/' :: trimChars s.toList) = '/' :: trimChars s.toList := by
  have h1 : ('/' :: trimChars s.toList).dropWhile isJsWhitespace =
      '/' :: trimChars s.toList := by
    rw [List.dropWhile_cons_of_neg]
    decide
  rw [trimChars_eq, h1]
  refine rdropWhile_cons_eq_self _ _ _ (by decide) ?_
  rw [trimChars_eq]
  exact List.rdropWhile_idempotent _ _

theorem jsTrim_slash_append (s : String) :
    jsTrim ("/" ++ jsTrim s) = "/" ++ jsTrim s := by
  show String.mk (trimChars ("/" ++ jsTrim s).toList) = _
  rw [toList_slash_append]
  show String.mk (trimChars ('/' :: trimChars s.toList)) = _
  rw [trimChars_slash_cons]
  rfl

theorem normalize_trim_empty (s : String) (h : jsTrim s = "") :
    normalizeHttpBasePath (some s) = "/mcp" := by
  by_cases hs : s = ""
  · subst hs
    rfl
  · unfold normalizeHttpBasePath
    simp [jsTruthy, hs, h, DEFAULT_HTTP_BASE_PATH]

theorem normalize_some (s : String) (h : jsTrim s ≠ "") :
    normalizeHttpBasePath (some s) =
      (if (withLead s).length = 1 then "/"
       else if jsEndsWith (withLead s) "/" then jsDropLast (withLead s)
       else withLead s) := by
  have hs : s ≠ "" := by
    intro he
    subst he
    exact h rfl
  unfold normalizeHttpBasePath withLead
  simp [jsTruthy, hs, h]

theorem withLead_toList_slash (s : String) : ∃ t, (withLead s).toList = '/' :: t := by
  unfold withLead
  cases hv : jsStartsWith (jsTrim s) "/" with
  | true =>
    simp only [if_true]
    exact (jsStartsWith_slash_iff _).mp hv
  | false =>
    simp only [Bool.false_eq_true, if_false]
    exact ⟨(jsTrim s).toList, toList_slash_append _⟩

theorem string_length_toList (s : String) : s.length = s.toList.length := rfl

theorem ne_empty_of_toList_cons (x : String) (c : Char) (t : List Char)
    (h : x.toList = c :: t) : x ≠ "" := by
  intro he
  subst he
  exact absurd h (by simp [String.toList])

/-- C7: the HTTP configuration resolver is total and falls back to the
documented defaults: a missing, non-numeric (parseInt yields NaN), or
non-positive port yields 8080; a missing or blank host yields "0.0.0.0"; a
missing base path yields "/mcp"; the session mode defaults to stateful; a
missing or unknown log level yields "info". -/
theorem getHttpServerConfig_defaults (env : Env) :
    ((env.MCP_HTTP_PORT <|> env.PORT) = none → (getHttpServerConfig env).port = 8080) ∧
    (∀ s, (env.MCP_HTTP_PORT <|> env.PORT) = some s → jsParseIntDec s = none →
      (getHttpServerConfig env).port = 8080) ∧
    (∀ s n, (env.MCP_HTTP_PORT <|> env.PORT) = some s → jsParseIntDec s = some n → n ≤ 0 →
      (getHttpServerConfig env).port = 8080) ∧
    (env.MCP_HTTP_HOST = none → (getHttpServerConfig env).host = "0.0.0.0") ∧
    (∀ h, env.MCP_HTTP_HOST = some h → jsTrim h = "" →
      (getHttpServerConfig env).host = "0.0.0.0") ∧
    (env.MCP_HTTP_PATH = none → (getHttpServerConfig env).basePath = "/mcp") ∧
    (env.MCP_HTTP_SESSION_STATEFUL = none → (getHttpServerConfig env).sessionStateful = true) ∧
    (env.LOG_LEVEL = none → getLogLevel env = "info") ∧
    (∀ l, env.LOG_LEVEL = some l → jsToLower l ≠ "debug" → jsToLower l ≠ "info" →
      jsToLower l ≠ "warn" → jsToLower l ≠ "error" → getLogLevel env = "info") := by
  refine ⟨?_, ?_, ?_, ?_, ?_, ?_, ?_, ?_, ?_⟩
  · intro h
    simp [getHttpServerConfig, h, jsTruthy, DEFAULT_HTTP_PORT]
  · intro s hs hp
    by_cases hse : s = ""
    · subst hse
      simp [getHttpServerConfig, hs, jsTruthy, DEFAULT_HTTP_PORT]
    · simp [getHttpServerConfig, hs, jsTruthy, hse, hp, DEFAULT_HTTP_PORT]
  · intro s n hs hp hn
    by_cases hse : s = ""
    · subst hse
      simp [getHttpServerConfig, hs, jsTruthy, DEFAULT_HTTP_PORT]
    · simp [getHttpServerConfig, hs, jsTruthy, hse, hp, hn, DEFAULT_HTTP_PORT]
  · intro h
    simp [getHttpServerConfig, h, DEFAULT_HTTP_HOST]
  · intro s hs ht
    simp [getHttpServerConfig, hs, ht, DEFAULT_HTTP_HOST]
  · intro h
    simp [getHttpServerConfig, h, normalizeHttpBasePath, jsTruthy, DEFAULT_HTTP_BASE_PATH]
  · intro h
    simp [getHttpServerConfig, h, jsTruthy]
  · intro h
    simp [getLogLevel, h, normalizeLogLevel, DEFAULT_LOG_LEVEL]
  · intro l hl h1 h2 h3 h4
    simp [getLogLevel, hl, normalizeLogLevel, h1, h2, h3, h4, DEFAULT_LOG_LEVEL]

/-- Witness for C7: the defaults fire at concrete environments — an empty
environment, one with a non-numeric port, blank host and unknown log level,
and one with a negative port. -/
theorem getHttpServerConfig_defaults_witness :
    (getHttpServerConfig {}).port = 8080 ∧
    (getHttpServerConfig {}).host = "0.0.0.0" ∧
    (getHttpServerConfig {}).basePath = "/mcp" ∧
    (getHttpServerConfig {}).sessionStateful = true ∧
    getLogLevel {} = "info" ∧
    (getHttpServerConfig { MCP_HTTP_PORT := some "abc", MCP_HTTP_HOST := some "   ",
                           LOG_LEVEL := some "verbose" }).port = 8080 ∧
    (getHttpServerConfig { MCP_HTTP_PORT := some "abc", MCP_HTTP_HOST := some "   ",
                           LOG_LEVEL := some "verbose" }).host = "0.0.0.0" ∧
    getLogLevel { MCP_HTTP_PORT := some "abc", MCP_HTTP_HOST := some "   ",
                  LOG_LEVEL := some "verbose" } = "info" ∧
    (getHttpServerConfig { PORT := some "-3" }).port = 8080 := by
  have hA := getHttpServerConfig_defaults {}
  have hB := getHttpServerConfig_defaults
    { MCP_HTTP_PORT := some "abc", MCP_HTTP_HOST := some "   ", LOG_LEVEL := some "verbose" }
  have hC := getHttpServerConfig_defaults { PORT := some "-3" }
  refine ⟨hA.1 rfl, hA.2.2.2.1 rfl, hA.2.2.2.2.2.1 rfl, hA.2.2.2.2.2.2.1 rfl,
          hA.2.2.2.2.2.2.2.1 rfl,
          hB.2.1 "abc" rfl (by decide),
          hB.2.2.2.2.1 "   " rfl (by decide),
          hB.2.2.2.2.2.2.2.2 "verbose" rfl (by decide) (by decide) (by decide) (by decide),
          hC.2.2.1 "-3" (-3) rfl (by decide) (by decide)⟩

/-- C8 counterexample: on input "//x" base-path normalization returns "//x",
whose first two characters are both slashes, so normalization does not
produce a path with a single leading slash. -/
theorem normalizeHttpBasePath_counterexample :
    normalizeHttpBasePath (some "//x") = "//x" ∧
    ("//x").toList.take 2 = ['/', '/'] := by decide

/-- C8 (amended): base-path normalization produces a path with a leading
slash (not necessarily a single one: an existing run of slashes is kept) and
strips a single trailing slash unless the resulting path is the root "/";
a missing or whitespace-only input yields "/mcp", an input without a leading
slash gets one prepended, and an input whose trimmed value is exactly "/"
is returned as "/". -/
theorem normalizeHttpBasePath_spec (v : Option String) :
    jsStartsWith (normalizeHttpBasePath v) "/" = true ∧
    (v = none → normalizeHttpBasePath v = "/mcp") ∧
    (∀ s, v = some s → jsTrim s = "" → normalizeHttpBasePath v = "/mcp") ∧
    (∀ s, v = some s → jsTrim s = "/" → normalizeHttpBasePath v = "/") ∧
    (∀ s, v = some s → jsTrim s ≠ "" → jsStartsWith (jsTrim s) "/" = false →
      normalizeHttpBasePath v = normalizeHttpBasePath (some ("/" ++ jsTrim s))) ∧
    (∀ s, v = some s → jsTrim s ≠ "" → (withLead s).length ≠ 1 →
      jsEndsWith (withLead s) "/" = true →
      normalizeHttpBasePath v = jsDropLast (withLead s)) ∧
    (∀ s, v = some s → jsTrim s ≠ "" → (withLead s).length ≠ 1 →
      jsEndsWith (withLead s) "/" = false →
      normalizeHttpBasePath v = withLead s) := by
  refine ⟨?_, ?_, ?_, ?_, ?_, ?_, ?_⟩
  · cases v with
    | none => decide
    | some s =>
      by_cases h0 : jsTrim s = ""
      · rw [normalize_trim_empty s h0]
        decide
      · rw [normalize_some s h0]
        obtain ⟨t, ht⟩ := withLead_toList_slash s
        split_ifs with h1 h2
        · decide
        · rw [jsStartsWith_slash_iff]
          have hlen : (withLead s).length = t.length + 1 := by
            rw [string_length_toList, ht]
            rfl
          cases t with
          | nil => exact absurd (by rw [hlen]; rfl) h1
          | cons a t2 =>
            refine ⟨(a :: t2).dropLast, ?_⟩
            show ((withLead s).toList.dropLast : List Char) = _
            rw [ht]
            rfl
        · rw [jsStartsWith_slash_iff]
          exact ⟨t, ht⟩
  · intro h
    subst h
    rfl
  · intro s hv h0
    subst hv
    exact normalize_trim_empty s h0
  · intro s hv h0
    subst hv
    have h1 : jsTrim s ≠ "" := by
      rw [h0]
      decide
    rw [normalize_some s h1]
    have hw : withLead s = "/" := by
      unfold withLead
      rw [h0]
      simp [show jsStartsWith "/" "/" = true by decide]
    rw [hw]
    decide
  · intro s hv h0 hns
    subst hv
    have happ : jsTrim ("/" ++ jsTrim s) = "/" ++ jsTrim s := jsTrim_slash_append s
    have hne : jsTrim ("/" ++ jsTrim s) ≠ "" := by
      rw [happ]
      exact ne_empty_of_toList_cons _ '/' (jsTrim s).toList (toList_slash_append _)
    rw [normalize_some s h0, normalize_some _ hne]
    have hww : withLead ("/" ++ jsTrim s) = withLead s := by
      unfold withLead
      rw [happ, hns]
      have h1 : jsStartsWith ("/" ++ jsTrim s) "/" = true :=
        (jsStartsWith_slash_iff _).mpr ⟨(jsTrim s).toList, toList_slash_append _⟩
      simp [h1]
    rw [hww]
  · intro s hv h0 h1 h2
    subst hv
    rw [normalize_some s h0]
    simp [h1, h2]
  · intro s hv h0 h1 h2
    subst hv
    rw [normalize_some s h0]
    simp [h1, h2]

/-- Witness for C8 (amended): the clauses fire at concrete inputs. -/
theorem normalizeHttpBasePath_spec_witness :
    jsStartsWith (normalizeHttpBasePath (some "api/")) "/" = true ∧
    normalizeHttpBasePath none = "/mcp" ∧
    normalizeHttpBasePath (some "  ") = "/mcp" ∧
    normalizeHttpBasePath (some " / ") = "/" ∧
    normalizeHttpBasePath (some "api/") = normalizeHttpBasePath (some ("/" ++ jsTrim "api/")) ∧
    normalizeHttpBasePath (some "/docs/") = jsDropLast (withLead "/docs/") ∧
    normalizeHttpBasePath (some "/docs") = withLead "/docs" := by
  have h1 := normalizeHttpBasePath_spec (some "api/")
  have h2 := normalizeHttpBasePath_spec none
  have h3 := normalizeHttpBasePath_spec (some "  ")
  have h4 := normalizeHttpBasePath_spec (some " / ")
  have h5 := normalizeHttpBasePath_spec (some "/docs/")
  have h6 := normalizeHttpBasePath_spec (some "/docs")
  exact ⟨h1.1, h2.2.1 rfl, h3.2.2.1 "  " rfl (by decide),
    h4.2.2.2.1 " / " rfl (by decide),
    h1.2.2.2.2.1 "api/" rfl (by decide) (by decide),
    h5.2.2.2.2.2.1 "/docs/" rfl (by decide) (by decide) (by decide),
    h6.2.2.2.2.2.2 "/docs" rfl (by decide) (by decide) (by decide)⟩

theorem parseCsvEnv_some_ne_nil (v : Option String) (l : List String)
    (h : parseCsvEnv v = some l) : l ≠ [] := by
  unfold parseCsvEnv at h
  cases v with
  | none => simp [jsTruthy] at h
  | some s =>
    by_cases hs : s = ""
    · subst hs
      simp [jsTruthy] at h
    · have ht : jsTruthy (some s) = true := by simp [jsTruthy, hs]
      rw [ht] at h
      simp only [Bool.not_true, Bool.false_eq_true, if_false] at h
      by_cases hlen : (((jsSplitComma s).map jsTrim).filter (fun e => e ≠ "")).length > 0
      · rw [if_pos hlen] at h
        cases h
        intro hnil
        rw [hnil] at hlen
        simp at hlen
      · rw [if_neg hlen] at h
        cases h

/-- C9: allow-list parsing splits on commas, trims each entry, discards
empty entries; absent, empty, or all-empty input yields `none` (no
restriction); `parseCsv` in the config resolver and `parseCsvEnv` in the
HTTP entry point agree; and DNS rebinding protection is enabled exactly when
at least one parsed allow-list is a non-empty list. -/
theorem parseCsvEnv_spec :
    parseCsvEnv none = none ∧
    parseCsvEnv (some "") = none ∧
    (∀ v, parseCsv v = parseCsvEnv v) ∧
    (∀ s, ((jsSplitComma s).map jsTrim).filter (fun e => e ≠ "") = [] →
      parseCsvEnv (some s) = none) ∧
    (∀ s l, parseCsvEnv (some s) = some l →
      l = ((jsSplitComma s).map jsTrim).filter (fun e => e ≠ "") ∧ l ≠ [] ∧
      ∀ e ∈ l, e ≠ "" ∧ e ∈ (jsSplitComma s).map jsTrim) ∧
    (∀ h o, dnsRebindingEnabled (parseCsvEnv h) (parseCsvEnv o) = true ↔
      ((∃ l, parseCsvEnv h = some l ∧ l ≠ []) ∨
       (∃ l, parseCsvEnv o = some l ∧ l ≠ []))) := by
  refine ⟨rfl, rfl, fun v => rfl, ?_, ?_, ?_⟩
  · intro s hfil
    unfold parseCsvEnv
    by_cases hs : s = ""
    · simp [hs, jsTruthy]
    · have ht : jsTruthy (some s) = true := by simp [jsTruthy, hs]
      rw [ht]
      simp only [Bool.not_true, Bool.false_eq_true, if_false]
      rw [hfil]
      simp
  · intro s l hp
    unfold parseCsvEnv at hp
    by_cases hs : s = ""
    · subst hs
      simp [jsTruthy] at hp
    · have ht : jsTruthy (some s) = true := by simp [jsTruthy, hs]
      rw [ht] at hp
      simp only [Bool.not_true, Bool.false_eq_true, if_false] at hp
      by_cases hlen : (((jsSplitComma s).map jsTrim).filter (fun e => e ≠ "")).length > 0
      · rw [if_pos hlen] at hp
        cases hp
        refine ⟨rfl, ?_, ?_⟩
        · intro hnil
          rw [hnil] at hlen
          simp at hlen
        · intro e he
          rw [List.mem_filter] at he
          refine ⟨?_, he.1⟩
          have := he.2
          simpa using this
      · rw [if_neg hlen] at hp
        cases hp
  · intro h o
    cases hh : parseCsvEnv h with
    | none =>
      cases ho : parseCsvEnv o with
      | none => simp [dnsRebindingEnabled, hh, ho]
      | some lo =>
        have hne := parseCsvEnv_some_ne_nil o lo ho
        simp [dnsRebindingEnabled, hh, ho, hne, List.length_pos]
    | some lh =>
      have hne := parseCsvEnv_some_ne_nil h lh hh
      simp [dnsRebindingEnabled, hh, hne, List.length_pos]

/-- Witness for C9: concrete evaluations exercising each clause. -/
theorem parseCsvEnv_spec_witness :
    parseCsvEnv (some " , ,") = none ∧
    (parseCsvEnv (some " a , ,b,") = some ["a", "b"] ∧
      (["a", "b"] : List String) ≠ [] ∧
      ∀ e ∈ (["a", "b"] : List String), e ≠ "" ∧ e ∈ (jsSplitComma " a , ,b,").map jsTrim) ∧
    (dnsRebindingEnabled (parseCsvEnv (some "a.example")) (parseCsvEnv none) = true ↔
      ((∃ l, parseCsvEnv (some "a.example") = some l ∧ l ≠ []) ∨
       (∃ l, parseCsvEnv none = some l ∧ l ≠ []))) := by
  refine ⟨parseCsvEnv_spec.2.2.2.1 " , ," (by decide), ?_, parseCsvEnv_spec.2.2.2.2.2 (some "a.example") none⟩
  have h := parseCsvEnv_spec.2.2.2.2.1 " a , ,b," ["a", "b"] (by decide)
  exact ⟨(by decide), h.2.1, h.2.2⟩

/-- C10 counterexample: with the explicit option `stateful` and the
environment variable set to "stateless", the entry point resolves the mode
as stateful although the claimed iff (option is "stateless" OR the variable
lowercases to "stateless") predicts stateless. -/
theorem resolveSessionMode_counterexample :
    ¬ (resolveSessionMode (some SessionMode.stateful)
         { MCP_HTTP_SESSION_MODE := some "stateless" } = SessionMode.stateless ↔
       (some SessionMode.stateful = some SessionMode.stateless ∨
        ∃ w, (({ MCP_HTTP_SESSION_MODE := some "stateless" } : Env)).MCP_HTTP_SESSION_MODE
               = some w ∧ jsToLower w = "stateless")) := by
  intro h
  have h2 := h.mpr (Or.inr ⟨"stateless", rfl, by decide⟩)
  exact absurd h2 (by decide)

/-- C10 (amended): the entry point resolves the session mode as stateless
exactly when the explicit option is "stateless", or the option is absent and
`MCP_HTTP_SESSION_MODE` lowercases to "stateless" (the option takes
precedence over the environment); `MCP_HTTP_SESSION_STATEFUL` has no effect
on the resolved mode, and the configuration resolver's `sessionStateful`
flag can disagree with the mode the server starts in. -/
theorem resolveSessionMode_spec (optMode : Option SessionMode) (env : Env) :
    (resolveSessionMode optMode env = SessionMode.stateless ↔
      (optMode = some SessionMode.stateless ∨
       (optMode = none ∧
        ∃ w, env.MCP_HTTP_SESSION_MODE = some w ∧ jsToLower w = "stateless"))) ∧
    (∀ w, resolveSessionMode optMode { env with MCP_HTTP_SESSION_STATEFUL := w } =
      resolveSessionMode optMode env) ∧
    (∃ e : Env, (getHttpServerConfig e).sessionStateful = false ∧
      resolveSessionMode none e = SessionMode.stateful) := by
  refine ⟨?_, ?_, ?_⟩
  · cases optMode with
    | some m =>
      cases m with
      | stateful => simp [resolveSessionMode]
      | stateless => simp [resolveSessionMode]
    | none =>
      cases hv : env.MCP_HTTP_SESSION_MODE with
      | none => simp [resolveSessionMode, hv]
      | some w =>
        by_cases hw : jsToLower w = "stateless"
        · simp [resolveSessionMode, hv, hw]
        · simp [resolveSessionMode, hv, hw]
  · intro w
    cases optMode with
    | some m => rfl
    | none => rfl
  · refine ⟨{ MCP_HTTP_SESSION_STATEFUL := some "false" }, ?_, rfl⟩
    decide

/-- Witness for C10 (amended): the iff and independence clauses evaluated at
concrete inputs. -/
theorem resolveSessionMode_spec_witness :
    (resolveSessionMode none { MCP_HTTP_SESSION_MODE := some "STATELESS" } =
       SessionMode.stateless ↔
      (none = some SessionMode.stateless ∨
       ((none : Option SessionMode) = none ∧
        ∃ w, (({ MCP_HTTP_SESSION_MODE := some "STATELESS" } : Env)).MCP_HTTP_SESSION_MODE
               = some w ∧ jsToLower w = "stateless"))) ∧
    resolveSessionMode none
      { MCP_HTTP_SESSION_MODE := some "STATELESS", MCP_HTTP_SESSION_STATEFUL := some "false" } =
      resolveSessionMode none { MCP_HTTP_SESSION_MODE := some "STATELESS" } := by
  have h := resolveSessionMode_spec none { MCP_HTTP_SESSION_MODE := some "STATELESS" }
  exact ⟨h.1, h.2.1 (some "false")⟩

/-- C3: when forwarding into the protocol router throws, the request handler
always ends the response (the connection is never left hanging and the
failure does not escape the handler); if response headers were not yet sent
it writes status 500 with the JSON-RPC envelope (jsonrpc "2.0", error code
-32000 with message "Internal server error", id null), and otherwise it just
terminates the response unchanged. -/
theorem handleHttpRequest_error (forward : Res → ForwardResult) (res r : Res) (err : String)
    (h : forward res = ForwardResult.threw err r) :
    (handleHttpRequest forward res).ended = true ∧
    (r.headersSent = false →
      handleHttpRequest forward res =
        { r with headersSent := true, status := some 500, contentTypeJson := true,
                 body := some (RespBody.jsonErrorEnvelope "2.0" (-32000) "Internal server error" true),
                 ended := true }) ∧
    (r.headersSent = true → handleHttpRequest forward res = { r with ended := true }) := by
  unfold handleHttpRequest
  rw [h]
  refine ⟨?_, ?_, ?_⟩
  · cases hh : r.headersSent <;> simp [hh]
  · intro hh
    simp [hh]
  · intro hh
    simp [hh]

/-- Witness for C3: a concrete throwing forwarder against a fresh response
and against a response whose headers are already sent. -/
theorem handleHttpRequest_error_witness :
    ((handleHttpRequest (fun q => ForwardResult.threw "boom" q)
        { headersSent := false, status := none, contentTypeJson := false,
          body := none, ended := false }).ended = true ∧
      handleHttpRequest (fun q => ForwardResult.threw "boom" q)
          { headersSent := false, status := none, contentTypeJson := false,
            body := none, ended := false } =
        { headersSent := true, status := some 500, contentTypeJson := true,
          body := some (RespBody.jsonErrorEnvelope "2.0" (-32000) "Internal server error" true),
          ended := true }) ∧
    handleHttpRequest (fun q => ForwardResult.threw "boom" q)
        { headersSent := true, status := some 200, contentTypeJson := true,
          body := none, ended := false } =
      { headersSent := true, status := some 200, contentTypeJson := true,
        body := none, ended := true } := by
  have h1 := handleHttpRequest_error (fun q => ForwardResult.threw "boom" q)
    { headersSent := false, status := none, contentTypeJson := false,
      body := none, ended := false }
    { headersSent := false, status := none, contentTypeJson := false,
      body := none, ended := false } "boom" rfl
  have h2 := handleHttpRequest_error (fun q => ForwardResult.threw "boom" q)
    { headersSent := true, status := some 200, contentTypeJson := true,
      body := none, ended := false }
    { headersSent := true, status := some 200, contentTypeJson := true,
      body := none, ended := false } "boom" rfl
  exact ⟨⟨h1.1, h1.2.1 rfl⟩, h2.2.2 rfl⟩

/-- C4: shutdown performs its teardown steps in the fixed order — close the
listening socket to completion, then close the transport (draining all
sessions), then release the MCP server — and no later step begins before the
previous one has ended; the final state has the socket not listening, the
transport and MCP server closed, and every session closed. -/
theorem shutdown_ordered (s : ServerState) :
    (shutdown s).2 = [TeardownEv.httpCloseBegin, TeardownEv.httpCloseEnd,
      TeardownEv.transportCloseBegin, TeardownEv.transportCloseEnd,
      TeardownEv.mcpCloseBegin, TeardownEv.mcpCloseEnd] ∧
    precedes TeardownEv.httpCloseEnd TeardownEv.transportCloseBegin (shutdown s).2 ∧
    precedes TeardownEv.transportCloseEnd TeardownEv.mcpCloseBegin (shutdown s).2 ∧
    (shutdown s).1.listening = false ∧
    (shutdown s).1.transportOpen = false ∧
    (shutdown s).1.mcpOpen = false ∧
    (∀ p ∈ (shutdown s).1.sessions, p.2 = SessionLiveness.closed) := by
  have htr : (shutdown s).2 = [TeardownEv.httpCloseBegin, TeardownEv.httpCloseEnd,
      TeardownEv.transportCloseBegin, TeardownEv.transportCloseEnd,
      TeardownEv.mcpCloseBegin, TeardownEv.mcpCloseEnd] := rfl
  refine ⟨htr, ?_, ?_, rfl, rfl, rfl, ?_⟩
  · rw [htr]
    exact ⟨1, 2, by decide, rfl, rfl⟩
  · rw [htr]
    exact ⟨3, 4, by decide, rfl, rfl⟩
  · intro p hp
    have : (shutdown s).1.sessions = s.sessions.map (fun q => (q.1, SessionLiveness.closed)) := rfl
    rw [this] at hp
    obtain ⟨q, _, hq⟩ := List.mem_map.mp hp
    rw [← hq]

/-- Witness for C4: the session-closure clause evaluated on a concrete
started server with one open session. -/
theorem shutdown_ordered_witness :
    ∀ p ∈ (shutdown sampleServer).1.sessions, p.2 = SessionLiveness.closed :=
  (shutdown_ordered sampleServer).2.2.2.2.2.2

/-- C5: shutdown is idempotent — running it a second time from the state the
first run produced changes nothing and resolves without error — and after
shutdown the listening status is false and every session is closed. -/
theorem shutdown_idempotent (s : ServerState) :
    shutdownState (shutdownState s) = shutdownState s ∧
    shutdownE (shutdownState s) = Except.ok (shutdownState s) ∧
    (shutdownState s).listening = false ∧
    (∀ p ∈ (shutdownState s).sessions, p.2 = SessionLiveness.closed) := by
  have hmap : (shutdownState s).sessions =
      s.sessions.map (fun q => (q.1, SessionLiveness.closed)) := rfl
  have hidem : shutdownState (shutdownState s) = shutdownState s := by
    unfold shutdownState shutdown httpClose transportClose mcpClose
    simp only [List.map_map]
    rfl
  refine ⟨hidem, ?_, rfl, ?_⟩
  · unfold shutdownE
    rw [hidem]
  · intro p hp
    rw [hmap] at hp
    obtain ⟨q, _, hq⟩ := List.mem_map.mp hp
    rw [← hq]

/-- Witness for C5: the session-closure clause evaluated on a concrete
started server. -/
theorem shutdown_idempotent_witness :
    ∀ p ∈ (shutdownState sampleServer).sessions, p.2 = SessionLiveness.closed :=
  (shutdown_idempotent sampleServer).2.2.2

/-- C6: each termination signal triggers the shutdown sequence exactly once
even when fired twice (the one-shot handler is consumed by the first
delivery), the process exits only after shutdown resolves — the exit event
follows the shutdown-end event in the trace — with status 0 whether or not
shutdown succeeded, and a startup failure at the CLI entry exits with
status 1. -/
theorem signal_shutdown_once (ok : Bool) (sig : String)
    (h : sig = "SIGINT" ∨ sig = "SIGTERM") :
    (fireSignal ok sig registerSignalHandlers).shutdownRuns = 1 ∧
    fireSignal ok sig (fireSignal ok sig registerSignalHandlers) =
      fireSignal ok sig registerSignalHandlers ∧
    (fireSignal ok sig registerSignalHandlers).trace =
      [ProcEv.shutdownStart, ProcEv.shutdownEnd ok, ProcEv.exitEv 0] ∧
    (fireSignal ok sig registerSignalHandlers).exited = some 0 ∧
    cliEntryExitCode true = none ∧
    cliEntryExitCode false = some 1 := by
  rcases h with h | h <;> subst h <;> cases ok <;> decide

/-- Witness for C6: SIGINT fired twice against a freshly started server with
a failing shutdown. -/
theorem signal_shutdown_once_witness :
    (fireSignal false "SIGINT" registerSignalHandlers).shutdownRuns = 1 ∧
    fireSignal false "SIGINT" (fireSignal false "SIGINT" registerSignalHandlers) =
      fireSignal false "SIGINT" registerSignalHandlers ∧
    (fireSignal false "SIGINT" registerSignalHandlers).trace =
      [ProcEv.shutdownStart, ProcEv.shutdownEnd false, ProcEv.exitEv 0] ∧
    (fireSignal false "SIGINT" registerSignalHandlers).exited = some 0 ∧
    cliEntryExitCode true = none ∧
    cliEntryExitCode false = some 1 :=
  signal_shutdown_once false "SIGINT" (Or.inl rfl)

/-- C1: in stateful mode, after at least one successful initialization, a
well-negotiated POST (dual accept, JSON content type) carrying a
non-initialize message is rejected before reaching the protocol router when
it lacks a session header — with a body containing "Mcp-Session-Id header is
required" — and rejected with the distinct "Session not found" failure when
the header names no open session. (The gate is modelled from the spec, see
`requestGate`.) -/
theorem gate_post_requires_session (fresh negotiated : String) (r : GateRequest)
    (reg : Registry) (hm : r.method = HttpMethod.post)
    (hmode : reg.mode = SessionMode.stateful) (hinit : reg.initialized = true)
    (haj : r.acceptJson = true) (hae : r.acceptEventStream = true)
    (hct : r.contentTypeJson = true) (hni : r.msgMethod ≠ "initialize") :
    (r.sessionId = none →
      (requestGate fresh negotiated r reg).1 =
        GateOutcome.rejected 400 "Bad Request: Mcp-Session-Id header is required" ∧
      containsSub "Bad Request: Mcp-Session-Id header is required"
        "Mcp-Session-Id header is required" = true ∧
      ((requestGate fresh negotiated r reg).1).isForwarded = false) ∧
    (∀ sid, r.sessionId = some sid → reg.lookup sid = none →
      (requestGate fresh negotiated r reg).1 = GateOutcome.rejected 404 "Session not found" ∧
      ((requestGate fresh negotiated r reg).1).isForwarded = false) ∧
    (GateOutcome.rejected 404 "Session not found" ≠
      GateOutcome.rejected 400 "Bad Request: Mcp-Session-Id header is required") := by
  refine ⟨?_, ?_, by decide⟩
  · intro hs
    have hout : (requestGate fresh negotiated r reg).1 =
        GateOutcome.rejected 400 "Bad Request: Mcp-Session-Id header is required" := by
      unfold requestGate
      rw [hm]
      simp [haj, hae, hct, hni, hmode, hs]
    exact ⟨hout, by decide, by rw [hout]; rfl⟩
  · intro sid hs hlook
    have hout : (requestGate fresh negotiated r reg).1 =
        GateOutcome.rejected 404 "Session not found" := by
      unfold requestGate
      rw [hm]
      simp [haj, hae, hct, hni, hmode, hs, hlook]
    exact ⟨hout, by rw [hout]; rfl⟩

/-- Witness for C1: a concrete stateful registry with one open session, one
POST without the session header and one POST naming an unknown session. -/
theorem gate_post_requires_session_witness :
    ((requestGate "fresh" "2025-06-18"
        { method := HttpMethod.post, acceptJson := true, acceptEventStream := true,
          contentTypeJson := true, sessionId := none, protocolVersion := none,
          msgMethod := "tools/list" }
        { mode := SessionMode.stateful, sessions := [("sid-1", "2025-06-18")],
          initialized := true }).1 =
      GateOutcome.rejected 400 "Bad Request: Mcp-Session-Id header is required" ∧
     containsSub "Bad Request: Mcp-Session-Id header is required"
       "Mcp-Session-Id header is required" = true ∧
     ((requestGate "fresh" "2025-06-18"
        { method := HttpMethod.post, acceptJson := true, acceptEventStream := true,
          contentTypeJson := true, sessionId := none, protocolVersion := none,
          msgMethod := "tools/list" }
        { mode := SessionMode.stateful, sessions := [("sid-1", "2025-06-18")],
          initialized := true }).1).isForwarded = false) ∧
    ((requestGate "fresh" "2025-06-18"
        { method := HttpMethod.post, acceptJson := true, acceptEventStream := true,
          contentTypeJson := true, sessionId := some "ghost", protocolVersion := none,
          msgMethod := "tools/list" }
        { mode := SessionMode.stateful, sessions := [("sid-1", "2025-06-18")],
          initialized := true }).1 = GateOutcome.rejected 404 "Session not found" ∧
     ((requestGate "fresh" "2025-06-18"
        { method := HttpMethod.post, acceptJson := true, acceptEventStream := true,
          contentTypeJson := true, sessionId := some "ghost", protocolVersion := none,
          msgMethod := "tools/list" }
        { mode := SessionMode.stateful, sessions := [("sid-1", "2025-06-18")],
          initialized := true }).1).isForwarded = false) := by
  have h1 := gate_post_requires_session "fresh" "2025-06-18"
    { method := HttpMethod.post, acceptJson := true, acceptEventStream := true,
      contentTypeJson := true, sessionId := none, protocolVersion := none,
      msgMethod := "tools/list" }
    { mode := SessionMode.stateful, sessions := [("sid-1", "2025-06-18")],
      initialized := true }
    rfl rfl rfl rfl rfl rfl (by decide)
  have h2 := gate_post_requires_session "fresh" "2025-06-18"
    { method := HttpMethod.post, acceptJson := true, acceptEventStream := true,
      contentTypeJson := true, sessionId := some "ghost", protocolVersion := none,
      msgMethod := "tools/list" }
    { mode := SessionMode.stateful, sessions := [("sid-1", "2025-06-18")],
      initialized := true }
    rfl rfl rfl rfl rfl rfl (by decide)
  exact ⟨h1.1 rfl, h2.2.1 "ghost" rfl (by decide)⟩

/-- C2: a POST whose Accept header does not advertise both the
structured-response and the event-stream media types is rejected with status
406 and a body containing "Not Acceptable", and the registry is unchanged —
no session is created. (The gate is modelled from the spec, see
`requestGate`.) -/
theorem gate_post_not_acceptable (fresh negotiated : String) (r : GateRequest)
    (reg : Registry) (hm : r.method = HttpMethod.post)
    (hacc : (r.acceptJson && r.acceptEventStream) = false) :
    (requestGate fresh negotiated r reg).1 = GateOutcome.rejected 406 "Not Acceptable" ∧
    containsSub "Not Acceptable" "Not Acceptable" = true ∧
    (requestGate fresh negotiated r reg).2 = reg := by
  have h : requestGate fresh negotiated r reg =
      (GateOutcome.rejected 406 "Not Acceptable", reg) := by
    unfold requestGate
    rw [hm]
    simp [hacc]
  exact ⟨by rw [h], by decide, by rw [h]⟩

/-- Witness for C2: a POST advertising only the JSON media type against a
fresh stateful registry. -/
theorem gate_post_not_acceptable_witness :
    (requestGate "fresh" "2025-06-18"
        { method := HttpMethod.post, acceptJson := true, acceptEventStream := false,
          contentTypeJson := true, sessionId := none, protocolVersion := none,
          msgMethod := "initialize" }
        { mode := SessionMode.stateful, sessions := [], initialized := false }).1 =
      GateOutcome.rejected 406 "Not Acceptable" ∧
    containsSub "Not Acceptable" "Not Acceptable" = true ∧
    (requestGate "fresh" "2025-06-18"
        { method := HttpMethod.post, acceptJson := true, acceptEventStream := false,
          contentTypeJson := true, sessionId := none, protocolVersion := none,
          msgMethod := "initialize" }
        { mode := SessionMode.stateful, sessions := [], initialized := false }).2 =
      { mode := SessionMode.stateful, sessions := [], initialized := false } :=
  gate_post_not_acceptable "fresh" "2025-06-18"
    { method := HttpMethod.post, acceptJson := true, acceptEventStream := false,
      contentTypeJson := true, sessionId := none, protocolVersion := none,
      msgMethod := "initialize" }
    { mode := SessionMode.stateful, sessions := [], initialized := false }
    rfl rfl

end MocoMcp
